import Mathlib

/-!
Verification of the shipit agent runtime against its specification.

The definitions below are a shallow embedding of the Python sources:

* `src/backend/app/agents/event_bus.py` (EventType, Event, EventBus)
* `src/backend/app/agents/registry.py` (AgentRegistry)
* `src/backend/app/agents/base.py` (BaseAgent error-event publication)
* `src/backend/app/agents/review_coordination.py` (MR readiness tracking,
  auto-merge decision)
* `src/backend/app/agents/product_intelligence.py` (correlation fallback)
* `src/backend/app/agents/deployment_orchestrator.py` (post-deploy health)
* `src/backend/app/services/agent_ai_service.py` (security_scan)
* `src/backend/app/agents/code_orchestration.py` (_slugify, branch names)

Python dicts are modelled as association lists, bound handler objects as
abstract identifiers compared by equality, awaited external calls (DB,
GitLab, LLM) as explicit environment records, and exceptions as early
returns mirroring the try/except structure of the source.
-/

namespace ShipIt

/-- Event kinds, mirroring the `EventType` str-Enum in `event_bus.py`. -/
inductive EventType where
  | JIRA_TICKET_CREATED
  | JIRA_TICKET_UPDATED
  | CODE_PUSHED
  | PR_OPENED
  | PR_READY_FOR_REVIEW
  | PR_APPROVED
  | MERGE_TO_MAIN
  | GITLAB_ISSUE_ASSIGNED
  | PIPELINE_STARTED
  | PIPELINE_COMPLETED
  | PIPELINE_FAILED
  | FIGMA_DESIGN_CHANGED
  | REQUIREMENTS_ANALYZED
  | COMPLEXITY_TAGGED
  | STORIES_EXTRACTED
  | DESIGN_COMPARED
  | IMPLEMENTATION_NOTES_GENERATED
  | BRANCH_CREATED
  | BOILERPLATE_GENERATED
  | PR_TEMPLATE_CREATED
  | SECURITY_SCAN_COMPLETE
  | VULNERABILITY_FOUND
  | MERGE_BLOCKED
  | COMPLIANCE_REPORT_GENERATED
  | TEST_SUGGESTIONS_GENERATED
  | TEST_REPORT_CREATED
  | COVERAGE_REPORT
  | REVIEWERS_ASSIGNED
  | REVIEW_REMINDER_SENT
  | REVIEW_SLA_BREACHED
  | PR_AUTO_MERGED
  | DEPLOY_STARTED
  | DEPLOY_COMPLETE
  | DEPLOY_FAILED
  | ROLLBACK_TRIGGERED
  | RELEASE_NOTES_GENERATED
  | METRICS_COLLECTED
  | REPORT_GENERATED
  | BOTTLENECK_DETECTED
  | SLACK_NOTIFICATION
  | AGENT_ERROR
deriving DecidableEq, Repr

/-- Wire value of each event kind (the string payload of the str-Enum). -/
def eventTypeValue : EventType → String
  | .JIRA_TICKET_CREATED => "jira.ticket.created"
  | .JIRA_TICKET_UPDATED => "jira.ticket.updated"
  | .CODE_PUSHED => "gitlab.code.pushed"
  | .PR_OPENED => "gitlab.pr.opened"
  | .PR_READY_FOR_REVIEW => "gitlab.pr.ready_for_review"
  | .PR_APPROVED => "gitlab.pr.approved"
  | .MERGE_TO_MAIN => "gitlab.merge.main"
  | .GITLAB_ISSUE_ASSIGNED => "gitlab.issue.assigned"
  | .PIPELINE_STARTED => "gitlab.pipeline.started"
  | .PIPELINE_COMPLETED => "gitlab.pipeline.completed"
  | .PIPELINE_FAILED => "gitlab.pipeline.failed"
  | .FIGMA_DESIGN_CHANGED => "figma.design.changed"
  | .REQUIREMENTS_ANALYZED => "agent.product.requirements_analyzed"
  | .COMPLEXITY_TAGGED => "agent.product.complexity_tagged"
  | .STORIES_EXTRACTED => "agent.product.stories_extracted"
  | .DESIGN_COMPARED => "agent.design.compared"
  | .IMPLEMENTATION_NOTES_GENERATED => "agent.design.impl_notes"
  | .BRANCH_CREATED => "agent.code.branch_created"
  | .BOILERPLATE_GENERATED => "agent.code.boilerplate_generated"
  | .PR_TEMPLATE_CREATED => "agent.code.pr_template_created"
  | .SECURITY_SCAN_COMPLETE => "agent.security.scan_complete"
  | .VULNERABILITY_FOUND => "agent.security.vulnerability_found"
  | .MERGE_BLOCKED => "agent.security.merge_blocked"
  | .COMPLIANCE_REPORT_GENERATED => "agent.security.compliance_report"
  | .TEST_SUGGESTIONS_GENERATED => "agent.test.suggestions_generated"
  | .TEST_REPORT_CREATED => "agent.test.report_created"
  | .COVERAGE_REPORT => "agent.test.coverage_report"
  | .REVIEWERS_ASSIGNED => "agent.review.reviewers_assigned"
  | .REVIEW_REMINDER_SENT => "agent.review.reminder_sent"
  | .REVIEW_SLA_BREACHED => "agent.review.sla_breached"
  | .PR_AUTO_MERGED => "agent.review.auto_merged"
  | .DEPLOY_STARTED => "agent.deploy.started"
  | .DEPLOY_COMPLETE => "agent.deploy.complete"
  | .DEPLOY_FAILED => "agent.deploy.failed"
  | .ROLLBACK_TRIGGERED => "agent.deploy.rollback"
  | .RELEASE_NOTES_GENERATED => "agent.deploy.release_notes"
  | .METRICS_COLLECTED => "agent.analytics.metrics_collected"
  | .REPORT_GENERATED => "agent.analytics.report_generated"
  | .BOTTLENECK_DETECTED => "agent.analytics.bottleneck_detected"
  | .SLACK_NOTIFICATION => "notification.slack"
  | .AGENT_ERROR => "agent.error"

/-- The `Event` dataclass of `event_bus.py`.  The payload dict is modelled
as an association list of string pairs and the timestamp as a natural
number; `event_id` (a uuid in the source) is threaded in explicitly by
constructors. -/
structure Event where
  type : EventType
  data : List (String × String) := []
  source_agent : String := "system"
  project_id : Option Int := none
  event_id : String := ""
  timestamp : Nat := 0
  correlation_id : Option String := none
deriving DecidableEq, Repr

/-- Bound handler objects (`agent._on_event` in the source) are abstract
identifiers; Python compares bound methods of the same instance as equal. -/
abbrev Handler := Nat

/-- First-match lookup in the subscriber dict. -/
def getSubs : List (EventType × List Handler) → EventType → List Handler
  | [], _ => []
  | (k, hs) :: rest, t => if k = t then hs else getSubs rest t

/-- Dict update: replace the binding of the key, or append a new one. -/
def setSubs : List (EventType × List Handler) → EventType → List Handler →
    List (EventType × List Handler)
  | [], t, hs => [(t, hs)]
  | (k, old) :: rest, t, hs =>
      if k = t then (t, hs) :: rest else (k, old) :: setSubs rest t hs

/-- Dict membership test (`event_type in self._subscribers`). -/
def hasKey : List (EventType × List Handler) → EventType → Bool
  | [], _ => false
  | (k, _) :: rest, t => if k = t then true else hasKey rest t

/-- The error the specification says `publish` raises after `stop`. -/
inductive BusError where
  | ErrBusStopped
deriving DecidableEq, Repr

/-- The `EventBus` state: subscriber dict, dispatch queue, bounded history
deque (`maxlen = history_size`) and the running flag. -/
structure EventBus where
  subscribers : List (EventType × List Handler) := []
  queue : List Event := []
  history : List Event := []
  history_size : Nat := 1000
  running : Bool := false
deriving DecidableEq, Repr

/-- Appending to a `deque(maxlen = n)`: the oldest entries are dropped once
the length exceeds the bound. -/
def dequeAppend (maxlen : Nat) (h : List Event) (e : Event) : List Event :=
  let h' := h ++ [e]
  if maxlen < h'.length then h'.drop (h'.length - maxlen) else h'

/-- `EventBus.subscribe`: create the list on first use, then append. -/
def subscribe (bus : EventBus) (t : EventType) (h : Handler) : EventBus :=
  { bus with subscribers := setSubs bus.subscribers t (getSubs bus.subscribers t ++ [h]) }

/-- `EventBus.unsubscribe`: if the kind has a list, keep every handler that
does not compare equal to the argument. -/
def unsubscribe (bus : EventBus) (t : EventType) (h : Handler) : EventBus :=
  if hasKey bus.subscribers t then
    { bus with subscribers :=
        setSubs bus.subscribers t ((getSubs bus.subscribers t).filter (fun x => x ≠ h)) }
  else bus

/-- `EventBus.publish`: append to history, enqueue for dispatch.  The source
performs no check of the running flag, so the result is always `ok`; the
`Except` codomain exists to state the specified `ErrBusStopped` behaviour. -/
def publish (bus : EventBus) (e : Event) : Except BusError EventBus :=
  .ok { bus with
          history := dequeAppend bus.history_size bus.history e,
          queue := bus.queue ++ [e] }

/-- `EventBus.start`: set the running flag (dispatch task elided). -/
def startBus (bus : EventBus) : EventBus := { bus with running := true }

/-- `EventBus.stop`: clear the running flag (task cancellation elided). -/
def stopBus (bus : EventBus) : EventBus := { bus with running := false }

/-- The two filter passes of `EventBus.get_history`.  Each filter applies
only when its argument is truthy in Python: an enum member is always
truthy, while both `None` and `0` skip the project filter. -/
def historyFiltered (bus : EventBus) (event_type : Option EventType)
    (project_id : Option Int) : List Event :=
  let events := bus.history
  let events := match event_type with
    | some t => events.filter (fun e => e.type = t)
    | none => events
  match project_id with
  | some p => if p = 0 then events else events.filter (fun e => e.project_id = some p)
  | none => events

/-- Python list slice `xs[-limit:]` as executed by `get_history`. -/
def sliceLast (limit : Int) (xs : List Event) : List Event :=
  let s : Int := -limit
  let b : Int := if s < 0 then max ((xs.length : Int) + s) 0 else min s (xs.length : Int)
  xs.drop b.toNat

/-- `EventBus.get_history(limit, event_type, project_id)`. -/
def get_history (bus : EventBus) (limit : Int := 50)
    (event_type : Option EventType := none) (project_id : Option Int := none) :
    List Event :=
  sliceLast limit (historyFiltered bus event_type project_id)

/-- Per-event dispatch: the loop in `EventBus._dispatch` awaits every entry
of the subscriber list for the event kind, so a handler is invoked once per
occurrence in that list. -/
def dispatchInvocations (bus : EventBus) (e : Event) (h : Handler) : Nat :=
  (getSubs bus.subscribers e.type).count h

/-- An agent as the registry sees it: its stable name, declared event
kinds, and the identity of its `_on_event` bound handler. -/
structure Agent where
  name : String
  subscribed_events : List EventType
  handler : Handler
deriving DecidableEq, Repr

/-- Dict insert for the registry name map (`self._agents[agent.name] = agent`). -/
def setAgent : List (String × Agent) → String → Agent →
    List (String × Agent)
  | [], n, a => [(n, a)]
  | (k, old) :: rest, n, a =>
      if k = n then (n, a) :: rest else (k, old) :: setAgent rest n a

/-- `BaseAgent.register`: subscribe the agent handler for each declared kind. -/
def agentRegister (bus : EventBus) (a : Agent) : EventBus :=
  a.subscribed_events.foldl (fun b t => subscribe b t a.handler) bus

/-- `AgentRegistry` state: the name map plus the bus it wires agents into. -/
structure AgentRegistry where
  agents : List (String × Agent) := []
  bus : EventBus := {}
deriving DecidableEq, Repr

/-- `AgentRegistry.register`: store the agent under its name, then call
`agent.register()` which appends its handler to every declared kind. -/
def registryRegister (r : AgentRegistry) (a : Agent) : AgentRegistry :=
  { agents := setAgent r.agents a.name a, bus := agentRegister r.bus a }

/-- The synthetic `agent.error` event built by `BaseAgent._on_event` when a
handler raises; its `correlation_id` is copied verbatim from the input
event (`base.py` line 102). -/
def agentErrorEvent (agentName : String) (e0 : Event) (errMsg : String)
    (processingMs : Nat) (newId : String) (now : Nat) : Event :=
  { type := EventType.AGENT_ERROR,
    data := [("agent", agentName), ("event_type", eventTypeValue e0.type),
             ("error", errMsg), ("processing_ms", toString processingMs)],
    source_agent := agentName,
    project_id := e0.project_id,
    event_id := newId,
    timestamp := now,
    correlation_id := e0.correlation_id }

/-- The `reviewers_assigned` event built in
`ReviewCoordinationAgent._handle_pr_opened`; again `correlation_id` is the
input value unchanged. -/
def reviewersAssignedEvent (e0 : Event) (mrIid : Nat) (reviewers : List Nat)
    (complexity : String) (estMinutes : Nat) (newId : String) (now : Nat) : Event :=
  { type := EventType.REVIEWERS_ASSIGNED,
    data := [("mr_iid", toString mrIid),
             ("reviewers", toString reviewers),
             ("complexity", complexity),
             ("estimated_review_minutes", toString estMinutes)],
    source_agent := "review_coordination",
    project_id := e0.project_id,
    event_id := newId,
    timestamp := now,
    correlation_id := e0.correlation_id }

/-- Python `x or y` on an optional string: `None` and the empty string are
falsy and select the fallback. -/
def pyStrOr (x : Option String) (y : String) : String :=
  match x with
  | some s => if s = "" then y else s
  | none => y

/-- The `requirements_analyzed` event built by
`ProductIntelligenceAgent.handle_event`: this agent alone passes
`event.correlation_id or event.event_id`. -/
def requirementsAnalyzedEvent (e0 : Event) (ticketKey : String)
    (newId : String) (now : Nat) : Event :=
  { type := EventType.REQUIREMENTS_ANALYZED,
    data := [("ticket_key", ticketKey)],
    source_agent := "product_intelligence",
    project_id := e0.project_id,
    event_id := newId,
    timestamp := now,
    correlation_id := some (pyStrOr e0.correlation_id e0.event_id) }

/-- One MR readiness record of the module-level `_mr_state` dict in
`review_coordination.py`.  All booleans default to false. -/
structure MrState where
  security_passed : Bool := false
  tests_passed : Bool := false
  auto_merge_eligible : Bool := false
  opened_at : Option String := none
deriving DecidableEq, Repr

/-- The readiness tracker: a dict keyed by the `_mr_key` string. -/
abbrev MrMap := List (String × MrState)

/-- First-match lookup in the readiness dict. -/
def mapGet : MrMap → String → Option MrState
  | [], _ => none
  | (k, v) :: rest, key => if k = key then some v else mapGet rest key

/-- Dict update for the readiness tracker. -/
def mapSet : MrMap → String → MrState → MrMap
  | [], key, v => [(key, v)]
  | (k, old) :: rest, key, v =>
      if k = key then (key, v) :: rest else (k, old) :: mapSet rest key v

/-- `dict.pop(key, None)`: remove the binding if present. -/
def mapPop : MrMap → String → MrMap
  | [], _ => []
  | (k, v) :: rest, key => if k = key then rest else (k, v) :: mapPop rest key

/-- `_mr_key(project_id, mr_iid)`. -/
def mrKey (projectId mrIid : Nat) : String :=
  toString projectId ++ ":" ++ toString mrIid

/-- Results of the awaited calls inside `_try_auto_merge`: the project
agent-config lookup (`_is_auto_merge_enabled`), the enabled GitLab
connection row, its configured external project id, and whether
`gitlab.merge_mr` returns without raising. -/
structure TryMergeEnv where
  autoMergeEnabled : Bool
  hasGitlabConn : Bool
  hasGlProjectId : Bool
  mergeSucceeds : Bool
deriving DecidableEq, Repr

/-- Outcome of one review-coordination handler run: the readiness dict
afterwards, whether the VCS merge endpoint was called, and the kinds of the
events published. -/
structure RcResult where
  state : MrMap
  mergeCalled : Bool
  published : List EventType
deriving DecidableEq, Repr

/-- `ReviewCoordinationAgent._try_auto_merge`: guard chain in source order
(enabled, eligible, security, tests), then the GitLab connection lookups;
on a successful merge the record is popped and `pr_auto_merged` plus a
chat notification are published; if `merge_mr` raises, the exception is
caught and the record is left intact. -/
def tryAutoMerge (st : MrMap) (projectId mrIid : Nat) (env : TryMergeEnv) :
    RcResult :=
  let key := mrKey projectId mrIid
  let s := (mapGet st key).getD {}
  if ¬ env.autoMergeEnabled then ⟨st, false, []⟩
  else if ¬ s.auto_merge_eligible then ⟨st, false, []⟩
  else if ¬ s.security_passed then ⟨st, false, []⟩
  else if ¬ s.tests_passed then ⟨st, false, []⟩
  else if ¬ env.hasGitlabConn then ⟨st, false, []⟩
  else if ¬ env.hasGlProjectId then ⟨st, false, []⟩
  else if env.mergeSucceeds then
    ⟨mapPop st key, true,
     [EventType.PR_AUTO_MERGED, EventType.SLACK_NOTIFICATION]⟩
  else ⟨st, true, []⟩

/-- `ReviewCoordinationAgent._on_security_complete`: guard falsy ids,
create the record on first arrival, store `passed`, and attempt auto-merge
only when the scan passed. -/
def onSecurityComplete (st : MrMap) (projectId mrIid : Nat) (passed : Bool)
    (env : TryMergeEnv) : RcResult :=
  if mrIid = 0 ∨ projectId = 0 then ⟨st, false, []⟩
  else
    let key := mrKey projectId mrIid
    let st1 := if (mapGet st key).isNone then mapSet st key {} else st
    let s := (mapGet st1 key).getD {}
    let st2 := mapSet st1 key { s with security_passed := passed }
    if ¬ passed then ⟨st2, false, []⟩
    else tryAutoMerge st2 projectId mrIid env

/-- `ReviewCoordinationAgent._on_tests_complete`: a test report marks tests
as passed and always attempts auto-merge. -/
def onTestsComplete (st : MrMap) (projectId mrIid : Nat) (env : TryMergeEnv) :
    RcResult :=
  if mrIid = 0 ∨ projectId = 0 then ⟨st, false, []⟩
  else
    let key := mrKey projectId mrIid
    let st1 := if (mapGet st key).isNone then mapSet st key {} else st
    let s := (mapGet st1 key).getD {}
    let st2 := mapSet st1 key { s with tests_passed := true }
    tryAutoMerge st2 projectId mrIid env

/-- The two readiness-relevant inputs of the review-coordination agent. -/
inductive RcInput where
  | security (passed : Bool)
  | tests
deriving DecidableEq, Repr

/-- Dispatch of `handle_event` restricted to the two readiness inputs. -/
def rcHandle (st : MrMap) (projectId mrIid : Nat) (i : RcInput)
    (env : TryMergeEnv) : RcResult :=
  match i with
  | .security passed => onSecurityComplete st projectId mrIid passed env
  | .tests => onTestsComplete st projectId mrIid env

/-- The readiness record as it stands at the auto-merge decision point:
the stored record (or a fresh default) with the flag update the handler
performed before deciding. -/
def decisionRecord (st : MrMap) (projectId mrIid : Nat) (i : RcInput) : MrState :=
  let pre := (mapGet st (mrKey projectId mrIid)).getD {}
  match i with
  | .security passed => { pre with security_passed := passed }
  | .tests => { pre with tests_passed := true }

/-- The result dict of `agent_ai_service.security_scan`.  A vulnerability
entry is represented by its severity: `none` stands for a list element that
is not a dict or lacks the key, `some s` for severity value `s`. -/
structure ScanResult where
  vulnerabilities : List (Option String)
  overall_risk : String
  passed : Bool
  summary : String
deriving DecidableEq, Repr

/-- Severity is one of the four accepted values
(`v.get("severity") in ("critical", "high", "medium", "low")`). -/
def sevIsValid : Option String → Bool
  | some s => s == "critical" || s == "high" || s == "medium" || s == "low"
  | none => false

/-- Severity is critical or high. -/
def sevIsCH : Option String → Bool
  | some s => s == "critical" || s == "high"
  | none => false

/-- The conservative result returned when the LLM call raises. -/
def conservativeScan : ScanResult :=
  { vulnerabilities := [],
    overall_risk := "unknown",
    passed := false,
    summary := "Security scan AI analysis failed - manual review required" }

/-- The per-prompt fallback used by `_parse_json` when the reply is not
valid JSON (note: the call has then succeeded, so this path is distinct
from the conservative one). -/
def scanFallback : ScanResult :=
  { vulnerabilities := [],
    overall_risk := "low",
    passed := true,
    summary := "Scan completed - unable to perform full analysis" }

/-- `agent_ai_service.security_scan` from the LLM outcome onwards: `none`
models `_ai_call` raising; `some parsed` models the validated parse of its
reply.  Entries with unrecognised severities are dropped, then any
critical or high finding forces `passed = False`, and `overall_risk` is
rewritten to high only when it was reported as low. -/
def security_scan (llm : Option ScanResult) : ScanResult :=
  match llm with
  | none => conservativeScan
  | some parsed =>
    let validated := parsed.vulnerabilities.filter sevIsValid
    let hasCH := validated.any sevIsCH
    { vulnerabilities := validated,
      overall_risk :=
        if hasCH ∧ parsed.overall_risk = "low" then "high" else parsed.overall_risk,
      passed := if hasCH then false else parsed.passed,
      summary := parsed.summary }

/-- Results of the monitoring lookups inside
`DeploymentOrchestratorAgent._check_post_deploy_health`: whether each
service connection row exists and what its probe reported, plus the
configured Sentry issue threshold (agent config, default 3). -/
structure HealthEnv where
  hasSentryConn : Bool
  sentryIssueCount : Nat
  errorThreshold : Nat := 3
  hasDatadogConn : Bool
  datadogAlertCount : Nat
deriving DecidableEq, Repr

/-- The dict returned by `_check_post_deploy_health`. -/
structure HealthResult where
  healthy : Bool
  errors : List String
  reason : Option String
  checks_run : Nat
deriving DecidableEq, Repr

/-- `DeploymentOrchestratorAgent._check_post_deploy_health`: a missing
project id is unhealthy; otherwise each configured monitoring connection
contributes one probe and possibly one error string, and the result is
healthy exactly when the error list is empty. -/
def checkPostDeployHealth (projectId : Option Nat) (env : HealthEnv) :
    HealthResult :=
  match projectId with
  | none =>
    { healthy := false, errors := ["No project_id"],
      reason := some "No project_id", checks_run := 0 }
  | some _ =>
    let sentryErrs :=
      if env.hasSentryConn ∧ env.errorThreshold < env.sentryIssueCount then
        [toString env.sentryIssueCount ++ " new Sentry issues in last hour (threshold: "
          ++ toString env.errorThreshold ++ ")"]
      else []
    let ddErrs :=
      if env.hasDatadogConn ∧ 0 < env.datadogAlertCount then
        [toString env.datadogAlertCount ++ " Datadog monitors in Alert state"]
      else []
    let errors := sentryErrs ++ ddErrs
    let checks := (if env.hasSentryConn then 1 else 0) + (if env.hasDatadogConn then 1 else 0)
    { healthy := errors.isEmpty, errors := errors,
      reason := errors.head?, checks_run := checks }

/-- The event kinds `DeploymentOrchestratorAgent.handle_event` publishes,
in order: a failed readiness check stops with `deploy_failed`; otherwise
`deploy_started`, optionally `release_notes_generated`, then either
`deploy_complete` plus a chat notification (when the health dict says
healthy) or `rollback_triggered` plus a chat notification. -/
def deployHandleEvents (ready : Bool) (releaseNotesNonempty : Bool)
    (health : HealthResult) : List EventType :=
  if ¬ ready then [EventType.DEPLOY_FAILED]
  else
    [EventType.DEPLOY_STARTED]
    ++ (if releaseNotesNonempty then [EventType.RELEASE_NOTES_GENERATED] else [])
    ++ (if health.healthy then
          [EventType.DEPLOY_COMPLETE, EventType.SLACK_NOTIFICATION]
        else
          [EventType.ROLLBACK_TRIGGERED, EventType.SLACK_NOTIFICATION])

/-- ASCII lowercasing as `str.lower` performs it on the relevant inputs. -/
def toLowerAscii (c : Char) : Char :=
  if 'A' ≤ c ∧ c ≤ 'Z' then Char.ofNat (c.toNat + 32) else c

/-- Membership in the slug character class `[a-z0-9]`. -/
def isSlugChar (c : Char) : Bool :=
  decide (('a' ≤ c ∧ c ≤ 'z') ∨ ('0' ≤ c ∧ c ≤ '9'))

/-- `re.sub(r"[^a-z0-9]+", "-", s)`: each maximal run of characters
outside the class becomes a single dash.  The flag records whether the
previous character belonged to such a run. -/
def subNonSlugRuns : List Char → Bool → List Char
  | [], _ => []
  | c :: rest, inRun =>
    if isSlugChar c then c :: subNonSlugRuns rest false
    else if inRun then subNonSlugRuns rest true
    else '-' :: subNonSlugRuns rest true

/-- `str.lstrip("-")` on a character list. -/
def lstripDash (l : List Char) : List Char := l.dropWhile (fun c => c == '-')

/-- `str.rstrip("-")` on a character list. -/
def rstripDash (l : List Char) : List Char :=
  (l.reverse.dropWhile (fun c => c == '-')).reverse

/-- `code_orchestration._slugify`: lowercase, collapse non-`[a-z0-9]` runs
to dashes, strip dashes at both ends, truncate to `maxLen`, strip any
trailing dash the cut exposed. -/
def _slugify (text : String) (maxLen : Nat := 40) : String :=
  let lowered := text.data.map toLowerAscii
  let slug := rstripDash (lstripDash (subNonSlugRuns lowered false))
  String.mk (rstripDash (slug.take maxLen))

/-- The branch name derived in
`CodeOrchestrationAgent._handle_requirements`. -/
def requirementsBranchName (ticketKey : String) (summary : String) : String :=
  "feature/" ++ ticketKey ++ "-" ++ _slugify summary

/-! ### Helper lemmas about the subscriber dict -/

theorem getSubs_setSubs_self (subs : List (EventType × List Handler))
    (t : EventType) (hs : List Handler) :
    getSubs (setSubs subs t hs) t = hs := by
  induction subs with
  | nil => simp [setSubs, getSubs]
  | cons p rest ih =>
    obtain ⟨k, old⟩ := p
    by_cases hk : k = t
    · simp [setSubs, getSubs, hk]
    · simp [setSubs, getSubs, hk, ih]

theorem getSubs_setSubs_ne (subs : List (EventType × List Handler))
    {t' t : EventType} (hs : List Handler) (h : t' ≠ t) :
    getSubs (setSubs subs t' hs) t = getSubs subs t := by
  induction subs with
  | nil => simp [setSubs, getSubs, h]
  | cons p rest ih =>
    obtain ⟨k, old⟩ := p
    by_cases hk : k = t'
    · subst hk
      simp [setSubs, getSubs, h]
    · simp [setSubs, getSubs, hk, ih]

theorem getSubs_subscribe_self (bus : EventBus) (t : EventType) (h : Handler) :
    getSubs (subscribe bus t h).subscribers t = getSubs bus.subscribers t ++ [h] := by
  simp [subscribe, getSubs_setSubs_self]

theorem getSubs_subscribe_ne (bus : EventBus) {t' t : EventType} (h : Handler)
    (ht : t' ≠ t) :
    getSubs (subscribe bus t' h).subscribers t = getSubs bus.subscribers t := by
  simp [subscribe, getSubs_setSubs_ne _ _ ht]

theorem hasKey_setSubs_self (subs : List (EventType × List Handler))
    (t : EventType) (hs : List Handler) :
    hasKey (setSubs subs t hs) t = true := by
  induction subs with
  | nil => simp [setSubs, hasKey]
  | cons p rest ih =>
    obtain ⟨k, old⟩ := p
    by_cases hk : k = t
    · simp [setSubs, hasKey, hk]
    · simp [setSubs, hasKey, hk, ih]

theorem getSubs_eq_nil_of_not_hasKey (subs : List (EventType × List Handler))
    (t : EventType) (h : hasKey subs t = false) :
    getSubs subs t = [] := by
  induction subs with
  | nil => simp [getSubs]
  | cons p rest ih =>
    obtain ⟨k, old⟩ := p
    by_cases hk : k = t
    · simp [hasKey, hk] at h
    · simp [hasKey, hk] at h
      simp [getSubs, hk, ih h]

theorem getSubs_foldl_subscribe (ts : List EventType) (bus : EventBus)
    (h : Handler) (t : EventType) :
    getSubs ((ts.foldl (fun b' t' => subscribe b' t' h) bus).subscribers) t
      = getSubs bus.subscribers t ++ List.replicate (ts.count t) h := by
  induction ts generalizing bus with
  | nil => simp
  | cons t' rest ih =>
    simp only [List.foldl_cons]
    rw [ih]
    by_cases ht : t' = t
    · subst ht
      rw [getSubs_subscribe_self, List.count_cons_self, List.replicate_succ,
        List.append_assoc, List.singleton_append]
    · rw [getSubs_subscribe_ne _ _ ht, List.count_cons_of_ne]
      exact fun hc => ht (by simpa using hc.symm)

theorem getSubs_agentRegister (bus : EventBus) (a : Agent) (t : EventType) :
    getSubs (agentRegister bus a).subscribers t
      = getSubs bus.subscribers t
          ++ List.replicate (a.subscribed_events.count t) a.handler := by
  simpa [agentRegister] using
    getSubs_foldl_subscribe a.subscribed_events bus a.handler t

theorem setAgent_idem (m : List (String × Agent)) (n : String) (a : Agent) :
    setAgent (setAgent m n a) n a = setAgent m n a := by
  induction m with
  | nil => simp [setAgent]
  | cons p rest ih =>
    obtain ⟨k, old⟩ := p
    by_cases hk : k = n
    · simp [setAgent, hk]
    · simp [setAgent, hk, ih]

/-! ### C5: publish after stop -/

/-- Claim C5 (corrected), counterexample: the specification says a publish
after `stop` fails with `ErrBusStopped` and the event is not accepted, but
`EventBus.publish` never consults the running flag: on a stopped bus the
publish still returns successfully and the new event lands in the
history. -/
theorem publish_after_stop_cex :
    publish (stopBus { history := [{ type := EventType.PR_OPENED, event_id := "e1" }],
                       running := true })
        { type := EventType.CODE_PUSHED, event_id := "e2" }
      = .ok { history := [{ type := EventType.PR_OPENED, event_id := "e1" },
                          { type := EventType.CODE_PUSHED, event_id := "e2" }],
              queue := [{ type := EventType.CODE_PUSHED, event_id := "e2" }],
              running := false }
    ∧ publish (stopBus { history := [{ type := EventType.PR_OPENED, event_id := "e1" }],
                         running := true })
        { type := EventType.CODE_PUSHED, event_id := "e2" }
      ≠ .error BusError.ErrBusStopped := by
  constructor
  · rfl
  · intro hc
    simp [publish] at hc

/-- Claim C5 (corrected), amended: after the bus has been stopped, a
publish still succeeds — the event is appended to the history (eviction
aside) and no `ErrBusStopped` is raised — and the history keeps the events
accepted before the stop. -/
theorem publish_after_stop_accepts (bus : EventBus) (e : Event)
    (h : bus.history.length < bus.history_size) :
    ∃ b', publish (stopBus bus) e = .ok b'
      ∧ b'.history = bus.history ++ [e]
      ∧ ∀ err : BusError, publish (stopBus bus) e ≠ .error err := by
  refine ⟨_, rfl, ?_, ?_⟩
  · simp only [publish, stopBus, dequeAppend, List.length_append, List.length_cons,
      List.length_nil]
    rw [if_neg (by omega)]
  · intro err hc
    simp [publish] at hc

/-- Witness for `publish_after_stop_accepts` at a concrete bus. -/
theorem publish_after_stop_accepts_witness :
    ∃ b', publish (stopBus { history := [{ type := EventType.PR_OPENED, event_id := "e1" }] })
            { type := EventType.CODE_PUSHED, event_id := "e2" }
        = .ok b'
      ∧ b'.history = [{ type := EventType.PR_OPENED, event_id := "e1" },
                      { type := EventType.CODE_PUSHED, event_id := "e2" }]
      ∧ ∀ err : BusError,
          publish (stopBus { history := [{ type := EventType.PR_OPENED, event_id := "e1" }] })
              { type := EventType.CODE_PUSHED, event_id := "e2" }
            ≠ .error err := by
  simpa using publish_after_stop_accepts
    { history := [{ type := EventType.PR_OPENED, event_id := "e1" }] }
    { type := EventType.CODE_PUSHED, event_id := "e2" }
    (by decide)

/-! ### C7: registering an agent twice -/

/-- Claim C7 (corrected), counterexample: the specification calls
`register` idempotent per name, but `agent.register()` appends the handler
unconditionally, so after registering the same agent twice the subscriber
list for a subscribed kind holds its handler twice and a single event of
that kind is dispatched to it twice, not once. -/
theorem register_twice_duplicates_cex :
    getSubs (registryRegister
        (registryRegister {}
          { name := "review_coordination",
            subscribed_events := [EventType.PR_OPENED], handler := 0 })
        { name := "review_coordination",
          subscribed_events := [EventType.PR_OPENED], handler := 0 }).bus.subscribers
      EventType.PR_OPENED = [0, 0]
    ∧ dispatchInvocations (registryRegister
        (registryRegister {}
          { name := "review_coordination",
            subscribed_events := [EventType.PR_OPENED], handler := 0 })
        { name := "review_coordination",
          subscribed_events := [EventType.PR_OPENED], handler := 0 }).bus
        { type := EventType.PR_OPENED, event_id := "e1" } 0 = 2
    ∧ dispatchInvocations (registryRegister
        (registryRegister {}
          { name := "review_coordination",
            subscribed_events := [EventType.PR_OPENED], handler := 0 })
        { name := "review_coordination",
          subscribed_events := [EventType.PR_OPENED], handler := 0 }).bus
        { type := EventType.PR_OPENED, event_id := "e1" } 0 ≠ 1 := by
  refine ⟨rfl, rfl, by decide⟩

/-- Claim C7 (corrected), amended: a second `register` of the same agent is
idempotent only on the registry name map; on the bus it appends the
handler again to every declared kind, so a kind that previously had no
copy of the handler holds one copy after the first registration and two
after the second, and one published event of that kind causes one and then
two dispatches to the agent. -/
theorem register_twice_behaviour (r : AgentRegistry) (a : Agent)
    (t : EventType) (e : Event)
    (hmem : t ∈ a.subscribed_events) (hnd : a.subscribed_events.Nodup)
    (hty : e.type = t) (hfresh : getSubs r.bus.subscribers t = []) :
    (registryRegister (registryRegister r a) a).agents = (registryRegister r a).agents
    ∧ dispatchInvocations (registryRegister r a).bus e a.handler = 1
    ∧ dispatchInvocations (registryRegister (registryRegister r a) a).bus e a.handler = 2 := by
  have hcount : a.subscribed_events.count t = 1 := List.count_eq_one_of_mem hnd hmem
  refine ⟨?_, ?_, ?_⟩
  · simp [registryRegister, setAgent_idem]
  · simp [dispatchInvocations, registryRegister, hty, getSubs_agentRegister,
      hfresh, hcount]
  · simp [dispatchInvocations, registryRegister, hty, getSubs_agentRegister,
      hfresh, hcount, List.count_replicate]

/-- Witness for `register_twice_behaviour` on a concrete agent and bus. -/
theorem register_twice_behaviour_witness :
    dispatchInvocations (registryRegister
        (registryRegister {}
          { name := "security_compliance",
            subscribed_events := [EventType.PR_OPENED, EventType.CODE_PUSHED],
            handler := 4 })
        { name := "security_compliance",
          subscribed_events := [EventType.PR_OPENED, EventType.CODE_PUSHED],
          handler := 4 }).bus
        { type := EventType.CODE_PUSHED, event_id := "w" } 4 = 2 := by
  exact (register_twice_behaviour {}
    { name := "security_compliance",
      subscribed_events := [EventType.PR_OPENED, EventType.CODE_PUSHED],
      handler := 4 }
    EventType.CODE_PUSHED { type := EventType.CODE_PUSHED, event_id := "w" }
    (by decide) (by decide) rfl rfl).2.2

/-! ### C8: unsubscribe semantics -/

/-- Claim C8 (corrected), counterexample: `unsubscribe` does not remove
only the first match — it filters out every equal handler — and with the
handler already subscribed once, a subscribe/unsubscribe pair empties the
list instead of restoring `[7]`. -/
theorem unsubscribe_removes_all_cex :
    getSubs (unsubscribe { subscribers := [(EventType.PR_OPENED, [7, 7])] }
        EventType.PR_OPENED 7).subscribers EventType.PR_OPENED = []
    ∧ getSubs (unsubscribe
          (subscribe { subscribers := [(EventType.PR_OPENED, [7])] }
            EventType.PR_OPENED 7)
          EventType.PR_OPENED 7).subscribers EventType.PR_OPENED = []
    ∧ getSubs ({ subscribers := [(EventType.PR_OPENED, [7])] } : EventBus).subscribers
        EventType.PR_OPENED ≠ [] := by
  refine ⟨rfl, rfl, by decide⟩

/-- Claim C8 (corrected), amended: `unsubscribe(kind, handler)` removes
every handler equal to the argument from the kind subscriber list, and a
subscribe/unsubscribe pair leaves that list identical exactly because the
handler was not already in it. -/
theorem subscribe_unsubscribe_roundtrip (bus : EventBus) (t : EventType)
    (h : Handler) (hnotin : h ∉ getSubs bus.subscribers t) :
    getSubs (unsubscribe bus t h).subscribers t
        = (getSubs bus.subscribers t).filter (fun x => x ≠ h)
    ∧ getSubs (unsubscribe (subscribe bus t h) t h).subscribers t
        = getSubs bus.subscribers t := by
  have hfilter : ∀ bus' : EventBus,
      getSubs (unsubscribe bus' t h).subscribers t
        = (getSubs bus'.subscribers t).filter (fun x => x ≠ h) := by
    intro bus'
    unfold unsubscribe
    by_cases hk : hasKey bus'.subscribers t
    · simp [hk, getSubs_setSubs_self]
    · simp only [Bool.not_eq_true] at hk
      simp [hk, getSubs_eq_nil_of_not_hasKey _ _ hk]
  have h1 : (getSubs bus.subscribers t).filter (fun x => x ≠ h)
      = getSubs bus.subscribers t := by
    apply List.filter_eq_self.mpr
    intro x hx
    simp only [ne_eq, decide_eq_true_eq]
    exact fun hxh => hnotin (hxh ▸ hx)
  refine ⟨hfilter bus, ?_⟩
  rw [hfilter, getSubs_subscribe_self, List.filter_append, h1]
  simp

/-- Witness for `subscribe_unsubscribe_roundtrip` on a concrete bus that
already subscribes a different handler. -/
theorem subscribe_unsubscribe_roundtrip_witness :
    getSubs (unsubscribe { subscribers := [(EventType.CODE_PUSHED, [3])] }
        EventType.CODE_PUSHED 9).subscribers EventType.CODE_PUSHED
        = [3].filter (fun x => x ≠ 9)
    ∧ getSubs (unsubscribe
          (subscribe { subscribers := [(EventType.CODE_PUSHED, [3])] }
            EventType.CODE_PUSHED 9)
          EventType.CODE_PUSHED 9).subscribers EventType.CODE_PUSHED = [3] := by
  simpa using subscribe_unsubscribe_roundtrip
    { subscribers := [(EventType.CODE_PUSHED, [3])] }
    EventType.CODE_PUSHED 9 (by decide)

/-! ### C10: get_history filters and limit -/

theorem sliceLast_length_le (limit : Int) (xs : List Event) (hl : 1 ≤ limit) :
    ((sliceLast limit xs).length : Int) ≤ limit := by
  show ((xs.drop (if (-limit : Int) < 0 then
      max ((xs.length : Int) + -limit) 0
    else min (-limit) (xs.length : Int)).toNat).length : Int) ≤ limit
  rw [if_pos (by omega : (-limit : Int) < 0)]
  simp only [List.length_drop]
  omega

theorem length_dropWhile_le (p : Char → Bool) (l : List Char) :
    (l.dropWhile p).length ≤ l.length := by
  induction l with
  | nil => simp
  | cons c rest ih =>
    by_cases hp : p c
    · simp only [List.dropWhile_cons, hp, if_true, List.length_cons]
      omega
    · simp [List.dropWhile_cons, hp]

theorem length_rstripDash_le (l : List Char) : (rstripDash l).length ≤ l.length := by
  unfold rstripDash
  rw [List.length_reverse]
  calc (l.reverse.dropWhile (fun c => c == '-')).length
      ≤ l.reverse.length := length_dropWhile_le _ _
    _ = l.length := List.length_reverse _

/-- Claim C10 (corrected), counterexample: with `limit = 0` the Python
slice `events[-limit:]` is `events[0:]`, the whole list, so `get_history`
returns more than `limit` events — one event comes back from a one-event
history. -/
theorem get_history_limit_zero_cex :
    get_history { history := [{ type := EventType.PR_OPENED, event_id := "e1" }] }
        0 none none
      = [{ type := EventType.PR_OPENED, event_id := "e1" }]
    ∧ ¬ (((get_history { history := [{ type := EventType.PR_OPENED, event_id := "e1" }] }
            0 none none).length : Int) ≤ 0) := by
  refine ⟨rfl, by decide⟩

/-- Claim C10 (corrected), amended: for positive `limit`, `get_history`
returns at most `limit` events, a suffix (the most recent part) of the
filtered history; each filter applies only when its argument is truthy, so
`project_id = 0` behaves like `None`, and a `None` kind disables the kind
filter.  With `limit = 0` the slice degenerates and the whole filtered
history is returned. -/
theorem get_history_spec (bus : EventBus) (limit : Int)
    (event_type : Option EventType) (project_id : Option Int)
    (hl : 1 ≤ limit) :
    ((get_history bus limit event_type project_id).length : Int) ≤ limit
    ∧ (get_history bus limit event_type project_id)
        <:+ historyFiltered bus event_type project_id
    ∧ get_history bus limit event_type (some 0)
        = get_history bus limit event_type none
    ∧ get_history bus limit none project_id
        = sliceLast limit (historyFiltered bus none project_id) := by
  refine ⟨?_, ?_, ?_, rfl⟩
  · exact sliceLast_length_le limit _ hl
  · unfold get_history sliceLast
    exact List.drop_suffix _ _
  · unfold get_history historyFiltered
    norm_num

/-- Witness for `get_history_spec` on a concrete two-event bus. -/
theorem get_history_spec_witness :
    ((get_history { history := [{ type := EventType.PR_OPENED, event_id := "a" },
                                { type := EventType.CODE_PUSHED, event_id := "b" }] }
        1 none none).length : Int) ≤ 1
    ∧ (get_history { history := [{ type := EventType.PR_OPENED, event_id := "a" },
                                 { type := EventType.CODE_PUSHED, event_id := "b" }] }
        1 none none)
        <:+ historyFiltered { history := [{ type := EventType.PR_OPENED, event_id := "a" },
                                          { type := EventType.CODE_PUSHED, event_id := "b" }] }
          none none := by
  have h := get_history_spec
    { history := [{ type := EventType.PR_OPENED, event_id := "a" },
                  { type := EventType.CODE_PUSHED, event_id := "b" }] }
    1 none none (by norm_num)
  exact ⟨h.1, h.2.1⟩

/-! ### C6: correlation id propagation -/

/-- Claim C6 (corrected), counterexample: the events built inside handlers
copy `correlation_id` verbatim; for an input that has an id but no
correlation id, the synthetic `agent.error` event (and likewise the
`reviewers_assigned` event) carries no correlation id, where the
specification requires the input id `"abc"`. -/
theorem correlation_no_fallback_cex :
    (agentErrorEvent "review_coordination"
        { type := EventType.PR_OPENED, event_id := "abc" }
        "boom" 12 "new-id" 0).correlation_id = none
    ∧ (agentErrorEvent "review_coordination"
        { type := EventType.PR_OPENED, event_id := "abc" }
        "boom" 12 "new-id" 0).correlation_id ≠ some "abc"
    ∧ (reviewersAssignedEvent
        { type := EventType.PR_OPENED, event_id := "abc" }
        42 [1, 2] "low" 15 "new-id" 0).correlation_id ≠ some "abc" := by
  refine ⟨rfl, by decide, by decide⟩

/-- Claim C6 (corrected), amended: events published from within handlers
carry the input event correlation id unchanged — equal to it when set, and
unset when the input had none — with the single exception of the Product
Intelligence agent, whose publishes fall back to the input event id when
the correlation id is missing or empty. -/
theorem correlation_copied_verbatim (e0 : Event) (agentName errMsg : String)
    (processingMs : Nat) (newId : String) (now : Nat) (mrIid : Nat)
    (reviewers : List Nat) (complexity : String) (estMinutes : Nat)
    (ticketKey : String) :
    (agentErrorEvent agentName e0 errMsg processingMs newId now).correlation_id
        = e0.correlation_id
    ∧ (reviewersAssignedEvent e0 mrIid reviewers complexity estMinutes
        newId now).correlation_id = e0.correlation_id
    ∧ (requirementsAnalyzedEvent e0 ticketKey newId now).correlation_id
        = some (pyStrOr e0.correlation_id e0.event_id) := by
  exact ⟨rfl, rfl, rfl⟩

/-! ### C9: branch name slug derivation -/

/-- Claim C9 (corrected), counterexample: for the example summary the slug
is truncated to exactly 40 characters, giving
`feature/SHIP-142-implement-real-time-websocket-notificati` — not the
shorter `...-noti` the specification states. -/
theorem slug_truncation_example_cex :
    requirementsBranchName "SHIP-142"
        "Implement real-time WebSocket notifications for task updates"
      ≠ "feature/SHIP-142-implement-real-time-websocket-noti" := by
  decide

/-- Claim C9 (corrected), amended: the branch is
`feature/<ticket-key>-<slug>` with the slug built by lowercasing,
collapsing runs outside `[a-z0-9]` to dashes, trimming dashes, and
truncating to 40 characters; on the example summary with ticket
`SHIP-142` the branch is exactly
`feature/SHIP-142-implement-real-time-websocket-notificati`, and every
slug has at most 40 characters. -/
theorem slug_truncation_example_amended :
    requirementsBranchName "SHIP-142"
        "Implement real-time WebSocket notifications for task updates"
      = "feature/SHIP-142-implement-real-time-websocket-notificati"
    ∧ ∀ s : String, (_slugify s).length ≤ 40 := by
  refine ⟨by decide, ?_⟩
  intro s
  calc (_slugify s).length
      = (rstripDash ((rstripDash
          (lstripDash (subNonSlugRuns (s.data.map toLowerAscii) false))).take 40)).length := rfl
    _ ≤ ((rstripDash
          (lstripDash (subNonSlugRuns (s.data.map toLowerAscii) false))).take 40).length :=
        length_rstripDash_le _
    _ ≤ 40 := List.length_take_le _ _

/-! ### C3: security scan server-side enforcement -/

/-- Claim C3 (corrected), counterexample: a successful LLM call reporting
one critical vulnerability and `overall_risk = "medium"` yields a result
whose `passed` is forced to false but whose `overall_risk` stays
`"medium"` — the risk is only rewritten when it was `"low"`, so the
claimed `overall_risk ≥ high` does not hold. -/
theorem security_scan_risk_not_bumped_cex :
    security_scan (some { vulnerabilities := [some "critical"],
                          overall_risk := "medium", passed := true, summary := "s" })
      = { vulnerabilities := [some "critical"], overall_risk := "medium",
          passed := false, summary := "s" }
    ∧ (security_scan (some { vulnerabilities := [some "critical"],
                             overall_risk := "medium", passed := true,
                             summary := "s" })).overall_risk ≠ "high"
    ∧ (security_scan (some { vulnerabilities := [some "critical"],
                             overall_risk := "medium", passed := true,
                             summary := "s" })).overall_risk ≠ "critical" := by
  refine ⟨rfl, by decide, by decide⟩

/-- Claim C3 (corrected), amended: (a) whenever the returned result holds
a critical or high vulnerability, `passed` is forced to false and
`overall_risk` is rewritten to `"high"` exactly when the LLM reported
`"low"` — any other reported value is kept as is; (b) when the LLM call
fails, the result is the conservative one (`passed = false`,
`overall_risk = "unknown"`, no vulnerabilities). -/
theorem security_scan_enforcement (parsed : ScanResult)
    (h : (security_scan (some parsed)).vulnerabilities.any sevIsCH = true) :
    (security_scan (some parsed)).passed = false
    ∧ (security_scan (some parsed)).overall_risk
        = (if parsed.overall_risk = "low" then "high" else parsed.overall_risk)
    ∧ security_scan none = conservativeScan
    ∧ conservativeScan.passed = false ∧ conservativeScan.overall_risk = "unknown"
    ∧ conservativeScan.vulnerabilities = [] := by
  have hch : (parsed.vulnerabilities.filter sevIsValid).any sevIsCH = true := h
  refine ⟨?_, ?_, rfl, rfl, rfl, rfl⟩
  · simp [security_scan, hch]
  · by_cases hlow : parsed.overall_risk = "low"
    · simp [security_scan, hch, hlow]
    · simp [security_scan, hch, hlow]

/-- Witness for `security_scan_enforcement` on a concrete LLM reply with a
high-severity finding and risk reported as low. -/
theorem security_scan_enforcement_witness :
    (security_scan (some { vulnerabilities := [some "high", some "bogus"],
                           overall_risk := "low", passed := true,
                           summary := "w" })).passed = false
    ∧ (security_scan (some { vulnerabilities := [some "high", some "bogus"],
                             overall_risk := "low", passed := true,
                             summary := "w" })).overall_risk
        = (if ("low" : String) = "low" then "high" else "low") := by
  have h := security_scan_enforcement
    { vulnerabilities := [some "high", some "bogus"],
      overall_risk := "low", passed := true, summary := "w" }
    (by decide)
  exact ⟨h.1, h.2.1⟩

/-! ### C4: post-deploy health with no monitoring -/

/-- Claim C4 (corrected), counterexample: with a project id present and no
enabled Sentry or Datadog connection, `_check_post_deploy_health` runs
zero probes, collects no errors, and therefore reports **healthy**; the
handler then publishes `deploy_complete` and no `rollback_triggered` —
the opposite of the specified conservative policy. -/
theorem no_monitoring_reports_healthy_cex :
    checkPostDeployHealth (some 1)
        { hasSentryConn := false, sentryIssueCount := 0,
          hasDatadogConn := false, datadogAlertCount := 0 }
      = { healthy := true, errors := [], reason := none, checks_run := 0 }
    ∧ EventType.DEPLOY_COMPLETE ∈ deployHandleEvents true false
        (checkPostDeployHealth (some 1)
          { hasSentryConn := false, sentryIssueCount := 0,
            hasDatadogConn := false, datadogAlertCount := 0 })
    ∧ EventType.ROLLBACK_TRIGGERED ∉ deployHandleEvents true false
        (checkPostDeployHealth (some 1)
          { hasSentryConn := false, sentryIssueCount := 0,
            hasDatadogConn := false, datadogAlertCount := 0 }) := by
  refine ⟨rfl, by decide, by decide⟩

/-- Claim C4 (corrected), amended: when the readiness check passes and no
monitoring service is configured, the health check runs zero probes and
reports healthy (its error list is empty), so the orchestrator publishes
`deploy_complete` and never `rollback_triggered`. -/
theorem no_monitoring_health_check (p : Nat) (env : HealthEnv)
    (releaseNotesNonempty : Bool)
    (hs : env.hasSentryConn = false) (hd : env.hasDatadogConn = false) :
    (checkPostDeployHealth (some p) env).checks_run = 0
    ∧ (checkPostDeployHealth (some p) env).healthy = true
    ∧ (checkPostDeployHealth (some p) env).errors = []
    ∧ EventType.DEPLOY_COMPLETE ∈
        deployHandleEvents true releaseNotesNonempty (checkPostDeployHealth (some p) env)
    ∧ EventType.ROLLBACK_TRIGGERED ∉
        deployHandleEvents true releaseNotesNonempty (checkPostDeployHealth (some p) env) := by
  have hres : checkPostDeployHealth (some p) env
      = { healthy := true, errors := [], reason := none, checks_run := 0 } := by
    simp [checkPostDeployHealth, hs, hd]
  refine ⟨by rw [hres], by rw [hres], by rw [hres], ?_, ?_⟩
  · rw [hres]
    cases releaseNotesNonempty <;> simp [deployHandleEvents]
  · rw [hres]
    cases releaseNotesNonempty <;> simp [deployHandleEvents]

/-- Witness for `no_monitoring_health_check` at a concrete project. -/
theorem no_monitoring_health_check_witness :
    (checkPostDeployHealth (some 7)
        { hasSentryConn := false, sentryIssueCount := 5,
          hasDatadogConn := false, datadogAlertCount := 2 }).healthy = true
    ∧ EventType.ROLLBACK_TRIGGERED ∉
        deployHandleEvents true true
          (checkPostDeployHealth (some 7)
            { hasSentryConn := false, sentryIssueCount := 5,
              hasDatadogConn := false, datadogAlertCount := 2 }) := by
  have h := no_monitoring_health_check 7
    { hasSentryConn := false, sentryIssueCount := 5,
      hasDatadogConn := false, datadogAlertCount := 2 } true rfl rfl
  exact ⟨h.2.1, h.2.2.2.2⟩

/-! ### Helper lemmas about the readiness tracker dict -/

theorem mapGet_mapSet_self (mm : MrMap) (k : String) (v : MrState) :
    mapGet (mapSet mm k v) k = some v := by
  induction mm with
  | nil => simp [mapSet, mapGet]
  | cons p rest ih =>
    obtain ⟨k', v'⟩ := p
    by_cases hk : k' = k
    · simp [mapSet, mapGet, hk]
    · simp [mapSet, mapGet, hk, ih]

theorem getD_after_init (st : MrMap) (key : String) :
    (mapGet (if (mapGet st key).isNone then mapSet st key {} else st) key).getD {}
      = (mapGet st key).getD {} := by
  cases hv : mapGet st key with
  | some v => simp [hv]
  | none => simp [hv, mapGet_mapSet_self]

/-- If `_try_auto_merge` called the merge endpoint or published
`pr_auto_merged`, then the stored readiness flags and the project config
flag were all true. -/
theorem tryAutoMerge_merge_imp (st : MrMap) (p m : Nat) (env : TryMergeEnv)
    (h : (tryAutoMerge st p m env).mergeCalled = true
         ∨ EventType.PR_AUTO_MERGED ∈ (tryAutoMerge st p m env).published) :
    env.autoMergeEnabled = true
    ∧ ((mapGet st (mrKey p m)).getD {}).security_passed = true
    ∧ ((mapGet st (mrKey p m)).getD {}).tests_passed = true
    ∧ ((mapGet st (mrKey p m)).getD {}).auto_merge_eligible = true := by
  simp only [tryAutoMerge] at h
  set s := (mapGet st (mrKey p m)).getD {} with hs
  by_cases h1 : env.autoMergeEnabled = true
  · by_cases h2 : s.auto_merge_eligible = true
    · by_cases h3 : s.security_passed = true
      · by_cases h4 : s.tests_passed = true
        · exact ⟨h1, h3, h4, h2⟩
        · exfalso
          simp [h1, h2, h3, h4] at h
      · exfalso
        simp [h1, h2, h3] at h
    · exfalso
      simp [h1, h2] at h
  · exfalso
    simp [h1] at h

/-! ### C1: auto-merge requires all four conditions -/

/-- Claim C1 (confirmed): when the review-coordination agent processes a
`security_scan_complete` or `test_report_created` event, it calls the VCS
merge endpoint or publishes `pr_auto_merged` only if, at decision time,
the readiness record has `security_passed`, `tests_passed` and
`auto_merge_eligible` all true and the project agent config enables
auto-merge; contrapositively, if any of the four is false nothing is
merged or published. -/
theorem auto_merge_only_when_all_conditions_hold (st : MrMap) (p m : Nat)
    (i : RcInput) (env : TryMergeEnv)
    (h : (rcHandle st p m i env).mergeCalled = true
         ∨ EventType.PR_AUTO_MERGED ∈ (rcHandle st p m i env).published) :
    env.autoMergeEnabled = true
    ∧ (decisionRecord st p m i).security_passed = true
    ∧ (decisionRecord st p m i).tests_passed = true
    ∧ (decisionRecord st p m i).auto_merge_eligible = true := by
  cases i with
  | security passed =>
    by_cases hid : m = 0 ∨ p = 0
    · exfalso
      simp [rcHandle, onSecurityComplete, hid] at h
    · by_cases hp : passed = true
      · subst hp
        simp only [rcHandle, onSecurityComplete, hid, if_false, Bool.not_true,
          decide_True, decide_False, Bool.false_eq_true, not_false_eq_true,
          ite_false, ite_true] at h
        simp only [not_true, if_false] at h
        obtain ⟨he, hsec, htst, hel⟩ := tryAutoMerge_merge_imp _ p m env h
        rw [mapGet_mapSet_self] at hsec htst hel
        simp only [Option.getD_some] at hsec htst hel
        rw [getD_after_init] at htst hel
        exact ⟨he, by simp [decisionRecord], by simpa [decisionRecord] using htst,
          by simpa [decisionRecord] using hel⟩
      · exfalso
        simp [rcHandle, onSecurityComplete, hid, hp] at h
  | tests =>
    by_cases hid : m = 0 ∨ p = 0
    · exfalso
      simp [rcHandle, onTestsComplete, hid] at h
    · simp only [rcHandle, onTestsComplete] at h
      rw [if_neg hid] at h
      obtain ⟨he, hsec, htst, hel⟩ := tryAutoMerge_merge_imp _ p m env h
      rw [mapGet_mapSet_self] at hsec htst hel
      simp only [Option.getD_some] at hsec htst hel
      rw [getD_after_init] at hsec hel
      exact ⟨he, by simpa [decisionRecord] using hsec, by simp [decisionRecord],
        by simpa [decisionRecord] using hel⟩

/-- Witness for `auto_merge_only_when_all_conditions_hold`: a fully ready
record, an enabled project and a passing scan do reach the merge call, and
the theorem extracts the four conditions there. -/
theorem auto_merge_only_when_all_conditions_hold_witness :
    ({ autoMergeEnabled := true, hasGitlabConn := true, hasGlProjectId := true,
       mergeSucceeds := true } : TryMergeEnv).autoMergeEnabled = true
    ∧ (decisionRecord [(mrKey 1 42,
          { security_passed := false, tests_passed := true,
            auto_merge_eligible := true })] 1 42 (.security true)).security_passed = true
    ∧ (decisionRecord [(mrKey 1 42,
          { security_passed := false, tests_passed := true,
            auto_merge_eligible := true })] 1 42 (.security true)).tests_passed = true
    ∧ (decisionRecord [(mrKey 1 42,
          { security_passed := false, tests_passed := true,
            auto_merge_eligible := true })] 1 42 (.security true)).auto_merge_eligible
        = true := by
  exact auto_merge_only_when_all_conditions_hold
    [(mrKey 1 42, { security_passed := false, tests_passed := true,
                    auto_merge_eligible := true })]
    1 42 (.security true)
    { autoMergeEnabled := true, hasGitlabConn := true, hasGlProjectId := true,
      mergeSucceeds := true }
    (by decide)

/-! ### C2: arrival order of security and test signals -/

/-- Claim C2 (confirmed): for an MR whose readiness record is eligible and
whose project enables auto-merge, the orders security-then-tests and
tests-then-security both produce exactly one `pr_auto_merged` event; a
successful merge deletes the readiness record, while a failed merge
attempt (the endpoint is called but raises) publishes nothing and leaves
the fully-flagged record in place for a later retry. -/
theorem mr_readiness_order_insensitive (p m : Nat) (env : TryMergeEnv)
    (hm : m ≠ 0) (hp : p ≠ 0)
    (hen : env.autoMergeEnabled = true) (hc : env.hasGitlabConn = true)
    (hg : env.hasGlProjectId = true) :
    let st0 : MrMap := [(mrKey p m, { auto_merge_eligible := true })]
    let okEnv := { env with mergeSucceeds := true }
    let failEnv := { env with mergeSucceeds := false }
    let rA1 := onSecurityComplete st0 p m true okEnv
    let rA2 := onTestsComplete rA1.state p m okEnv
    let rB1 := onTestsComplete st0 p m okEnv
    let rB2 := onSecurityComplete rB1.state p m true okEnv
    let fA1 := onSecurityComplete st0 p m true failEnv
    let fA2 := onTestsComplete fA1.state p m failEnv
    (rA1.published ++ rA2.published).count EventType.PR_AUTO_MERGED = 1
    ∧ (rB1.published ++ rB2.published).count EventType.PR_AUTO_MERGED = 1
    ∧ mapGet rA2.state (mrKey p m) = none
    ∧ mapGet rB2.state (mrKey p m) = none
    ∧ (fA1.published ++ fA2.published).count EventType.PR_AUTO_MERGED = 0
    ∧ fA2.mergeCalled = true
    ∧ mapGet fA2.state (mrKey p m)
        = some { security_passed := true, tests_passed := true,
                 auto_merge_eligible := true } := by
  obtain ⟨e1, e2, e3, e4⟩ := env
  simp only at hen hc hg
  subst hen hc hg
  intro st0 okEnv failEnv rA1 rA2 rB1 rB2 fA1 fA2
  simp only [st0, okEnv, failEnv, rA1, rA2, rB1, rB2, fA1, fA2,
    onSecurityComplete, onTestsComplete, tryAutoMerge, hm, hp,
    mapGet, mapSet, mapPop, or_self, if_false, ite_true, ite_false]
  norm_num [List.count_cons]
  decide

/-- Witness for `mr_readiness_order_insensitive` at MR 42 of project 1. -/
theorem mr_readiness_order_insensitive_witness :
    ((onSecurityComplete [(mrKey 1 42, { auto_merge_eligible := true })] 1 42 true
        { autoMergeEnabled := true, hasGitlabConn := true, hasGlProjectId := true,
          mergeSucceeds := true }).published
      ++ (onTestsComplete
            (onSecurityComplete [(mrKey 1 42, { auto_merge_eligible := true })] 1 42 true
              { autoMergeEnabled := true, hasGitlabConn := true, hasGlProjectId := true,
                mergeSucceeds := true }).state 1 42
            { autoMergeEnabled := true, hasGitlabConn := true, hasGlProjectId := true,
              mergeSucceeds := true }).published).count EventType.PR_AUTO_MERGED = 1 := by
  have h := mr_readiness_order_insensitive 1 42
    { autoMergeEnabled := true, hasGitlabConn := true, hasGlProjectId := true,
      mergeSucceeds := true }
    (by decide) (by decide) rfl rfl rfl
  exact h.1

end ShipIt
